import Mathlib

/-!
Shallow embedding of the iTrax browser notification subsystem:
the service worker `static/sw.js` and the page controller
`static/js/notifications.js`. JavaScript numbers that hold integral
timestamps and counts are modelled as `Int`; fallible browser calls are
modelled by explicit outcome types; DOM state is modelled as explicit
records threaded through the handlers.
-/

namespace ITrax

/-- JavaScript `Math.floor(a / b)`: floor division on integers
(the source only ever divides by the positive constants 1000, 60,
3600 and 86400). -/
def mathFloorDiv (a b : Int) : Int := Int.fdiv a b

/-- Embedding of `getTimeAgo(date)` from `static/js/notifications.js`
(lines 254-262). `now` and `date` are millisecond timestamps; the source
computes `diff = Math.floor((now - date) / 1000)` (elapsed whole seconds)
and then selects a label, floor-truncating each unit. -/
def getTimeAgo (now date : Int) : String :=
  let diff := mathFloorDiv (now - date) 1000
  if diff < 60 then "Just now"
  else if diff < 3600 then toString (mathFloorDiv diff 60) ++ "m ago"
  else if diff < 86400 then toString (mathFloorDiv diff 3600) ++ "h ago"
  else toString (mathFloorDiv diff 86400) ++ "d ago"

/-- Name of the service worker cache (`CACHE_NAME` in `static/sw.js`). -/
def CACHE_NAME : String := "itrax-v1"

/-- The fixed list of static assets cached at install time
(`urlsToCache` in `static/sw.js`, lines 3-8). -/
def urlsToCache : List String :=
  ["/", "/static/css/bootstrap.min.css", "/static/js/bootstrap.bundle.min.js",
   "/static/js/notifications.js"]

/-- Embedding of `cache.addAll(urls)`: fetches every URL in order and
stores the pairs; the returned promise rejects (modelled as `none`) as
soon as any single fetch fails. `fetch u = none` models a failed fetch of
asset `u`. -/
def cacheAddAll (fetch : String → Option String) :
    List String → Option (List (String × String))
  | [] => some []
  | u :: rest =>
    match fetch u with
    | none => none
    | some body => (cacheAddAll fetch rest).map (fun entries => (u, body) :: entries)

/-- Embedding of the `install` event listener in `static/sw.js` (lines
11-18): opens the cache named `CACHE_NAME` and populates it with
`urlsToCache` via `cache.addAll`; the promise handed to `event.waitUntil`
carries the named cache and its entries, and rejects iff any required
asset fetch fails (no catch anywhere on this chain). -/
def installHandler (fetch : String → Option String) :
    Option (String × List (String × String)) :=
  (cacheAddAll fetch urlsToCache).map (fun entries => (CACHE_NAME, entries))

/-- A service worker whose install `waitUntil` promise rejects is
discarded by the browser: it activates iff install succeeded. -/
def workerActivates (fetch : String → Option String) : Bool :=
  (installHandler fetch).isSome

/-- Projection of a parsed JSON push payload onto the fields the push
handler reads: `data.title`, `data.body`, `data.message`, `data.icon`;
a field is `none` when absent or non-string. The handler also spreads all
payload fields into the `options.data` bag; no claim inspects that bag
and it is not modelled. -/
structure PushJson where
  title : Option String
  body : Option String
  message : Option String
  icon : Option String
deriving DecidableEq, Repr

/-- Embedding of a browser `PushMessageData` object: `text` is what
`event.data.text()` returns, and `json` is `some` of the parsed payload
when `event.data.json()` succeeds, `none` when JSON parsing throws
(as it does for the raw texts "" and "not json\x7b"). -/
structure PushMessageData where
  text : String
  json : Option PushJson
deriving DecidableEq, Repr

/-- One action button of a displayed notification. -/
structure NotifAction where
  action : String
  title : String
  icon : String
deriving DecidableEq, Repr

/-- The options record passed to `showNotification`; the source assigns
`title` on every branch before displaying. -/
structure NotificationOptions where
  title : String
  body : String
  icon : String
  badge : String
  vibrate : List Nat
  actions : List NotifAction
deriving DecidableEq, Repr

/-- JavaScript `a || b` for a possibly-absent string field `a`: both an
absent field and an empty string are falsy and select `b`. -/
def jsOrString (a : Option String) (b : String) : String :=
  match a with
  | none => b
  | some s => if s = "" then b else s

/-- The two default actions built by the push handler
(`static/sw.js`, lines 43-54). -/
def defaultNotificationActions : List NotifAction :=
  [{ action := "explore", title := "View Details", icon := "/static/images/checkmark.png" },
   { action := "close", title := "Close", icon := "/static/images/xmark.png" }]

/-- Embedding of the `push` event listener in `static/sw.js` (lines
33-75): builds the default options record, then overrides per branch on
`event.data` presence and JSON parseability, and displays one
notification. -/
def pushHandler (eventData : Option PushMessageData) : NotificationOptions :=
  match eventData with
  | some d =>
    match d.json with
    | some data =>
      { title := jsOrString data.title "iTrax Notification"
        body := jsOrString data.body (jsOrString data.message "You have a new notification")
        icon := jsOrString data.icon "/static/images/favicon.ico"
        badge := "/static/images/badge.png"
        vibrate := [200, 100, 200]
        actions := defaultNotificationActions }
    | none =>
      { title := "iTrax Notification"
        body := jsOrString (some d.text) "You have a new notification"
        icon := "/static/images/favicon.ico"
        badge := "/static/images/badge.png"
        vibrate := [200, 100, 200]
        actions := defaultNotificationActions }
  | none =>
    { title := "iTrax Notification"
      body := "You have a new notification"
      icon := "/static/images/favicon.ico"
      badge := "/static/images/badge.png"
      vibrate := [200, 100, 200]
      actions := defaultNotificationActions }

/-- The push listener calls `showNotification` exactly once,
unconditionally, inside `event.waitUntil`: the list of notifications
displayed for one push event. -/
def pushDisplayed (eventData : Option PushMessageData) : List NotificationOptions :=
  [pushHandler eventData]

/-- An observable effect of the `notificationclick` listener. -/
inductive ClickEffect
  | closeNotification
  | openWindow (url : String)
deriving DecidableEq, Repr

/-- Embedding of the `notificationclick` event listener in `static/sw.js`
(lines 78-95). `action` is `event.action`: the id of the activated action
button, or the empty string for a bare click on the notification body.
Effects are listed in execution order. -/
def notificationclickHandler (action : String) : List ClickEffect :=
  ClickEffect.closeNotification ::
    (if action = "explore" then [ClickEffect.openWindow "/notifications/all"]
     else if action = "close" then []
     else [ClickEffect.openWindow "/"])

/-- The badge DOM element (`getElementById('notificationBadge')`): its
text content and CSS display property. The transient
`notification-badge-animate` class, added and removed again 500ms later,
is not modelled. -/
structure BadgeElem where
  textContent : String
  display : String
deriving DecidableEq, Repr

/-- The slice of `NotificationSystem` state touched by the count poll:
`this.notificationCount` plus the badge element (`none` when the hosting
page has no `#notificationBadge`). -/
structure CounterState where
  notificationCount : Int
  badge : Option BadgeElem
deriving DecidableEq, Repr

/-- Embedding of `updateNotificationBadge(count)` from
`static/js/notifications.js` (lines 161-176): early-returns when the
badge element is absent; otherwise shows the count when positive and
hides the badge when not, then records the count. -/
def updateNotificationBadge (count : Int) (s : CounterState) : CounterState :=
  match s.badge with
  | none => s
  | some b =>
    if count > 0 then
      { notificationCount := count,
        badge := some { textContent := toString count, display := "inline-block" } }
    else
      { notificationCount := count,
        badge := some { b with display := "none" } }

/-- Outcome of one `loadNotificationCount` poll: the fetch may reject,
the JSON parse may throw, or a parsed body arrives carrying its `success`
flag and `unread_count`. -/
inductive PollResult
  | fetchReject
  | parseFail
  | ok (success : Bool) (unread_count : Int)
deriving DecidableEq, Repr

/-- Embedding of `loadNotificationCount()` (lines 147-158): only a parsed
response whose `success` flag is true updates the badge; a rejected fetch
or a parse failure is caught and logged, leaving the state untouched, as
is a response with `success` false. -/
def loadNotificationCount (r : PollResult) (s : CounterState) : CounterState :=
  match r with
  | .ok true n => updateNotificationBadge n s
  | .ok false _ => s
  | .fetchReject => s
  | .parseFail => s

/-- The hardcoded fallback VAPID key in `getVAPIDPublicKey`. -/
def fallbackVAPIDKey : String :=
  "BEl62iUYgUivxIkv69yViEuiBIa40HI0DLI5kz5Fs0cEiw7MrKp9t0pNDhLRCb7cWfpVRYvx3VfP-J3LNlLBxL4"

/-- Outcome of fetching `/api/push/vapid-public-key`: the fetch or the
JSON parse may throw, or the parsed body carries a `publicKey` field
(`none` models an absent field, JavaScript `undefined`). -/
inductive KeyFetchOutcome
  | failure
  | parsed (publicKey : Option String)
deriving DecidableEq, Repr

/-- Embedding of `getVAPIDPublicKey()` (lines 88-98): returns the parsed
`publicKey` field on success and falls back to the hardcoded key when
the fetch or the parse throws. -/
def getVAPIDPublicKey : KeyFetchOutcome → Option String
  | .failure => some fallbackVAPIDKey
  | .parsed pk => pk

/-- An opaque browser push subscription handle; only its identity matters
here. -/
structure PushSubscription where
  endpoint : String
deriving DecidableEq, Repr

/-- Network calls issued by the subscription flow, in order:
the GET of the VAPID key and the POST registering the subscription with
the server (`/api/push/subscribe`). -/
inductive SubscribeCall
  | vapidKeyFetch
  | registerSubscription
deriving DecidableEq, Repr

/-- Embedding of `subscribeToPush()` (lines 65-86). `existing` is what
`pushManager.getSubscription()` returns; `browserOutcome` is the handle
`pushManager.subscribe(...)` would produce (`none` when it throws).
When a subscription already exists the function logs and returns before
any network traffic. Otherwise it fetches the VAPID key (which itself
never throws, see `getVAPIDPublicKey`), creates the browser
subscription, and sends it to the server; `sendSubscriptionToServer`
catches its own errors, so the registration POST is issued exactly once
whenever the browser subscription was created. A throwing browser
subscribe is caught by the surrounding try and leaves the state
unchanged, after the key fetch already happened. -/
def subscribeToPush (browserOutcome : Option PushSubscription)
    (existing : Option PushSubscription) :
    Option PushSubscription × List SubscribeCall :=
  match existing with
  | some sub => (some sub, [])
  | none =>
    match browserOutcome with
    | some newSub =>
      (some newSub, [SubscribeCall.vapidKeyFetch, SubscribeCall.registerSubscription])
    | none => (none, [SubscribeCall.vapidKeyFetch])

/-- One rendered notification row of the dropdown, as the mark-read
handler sees it: its `data-notification-id` attribute, its CSS class
list, and whether the "New" badge child is present. -/
structure NotificationItem where
  dataNotificationId : Int
  classes : List String
  hasNewBadge : Bool
deriving DecidableEq, Repr

/-- `classList.remove(c)`: drops every occurrence of the class. -/
def classListRemove (cs : List String) (c : String) : List String :=
  cs.filter (fun x => x ≠ c)

/-- `classList.add(c)`: appends the class when not already present. -/
def classListAdd (cs : List String) (c : String) : List String :=
  if c ∈ cs then cs else cs ++ [c]

/-- The DOM mutation applied to the clicked row on success (lines
276-282): remove the `unread` class, add `read`, and remove the `.badge`
("New") child if present. -/
def markReadMutate (it : NotificationItem) : NotificationItem :=
  { it with
    classes := classListAdd (classListRemove it.classes "unread") "read"
    hasNewBadge := false }

/-- `document.querySelector` on the `data-notification-id` attribute
selector followed by an in-place mutation: the first matching element is
replaced, everything else stays in place. -/
def updateFirst {α : Type} (p : α → Bool) (f : α → α) : List α → List α
  | [] => []
  | x :: xs => if p x then f x :: xs else x :: updateFirst p f xs

/-- Outcome of the mark-read PUT: an ok (2xx) response, a non-ok
response, or a rejected fetch (caught by the handler). -/
inductive FetchOutcome
  | ok
  | notOk
  | reject
deriving DecidableEq, Repr

/-- Network requests `markNotificationRead` can issue: its own PUT, the
count GET performed by `loadNotificationCount`, and the list GET
performed by `loadNotifications` (which it never calls). -/
inductive NetRequest
  | markReadPut (id : Int)
  | countGet
  | listGet
deriving DecidableEq, Repr

/-- Embedding of `markNotificationRead(notificationId)` (lines 265-290):
issues the PUT; on an ok response mutates the first row whose
`data-notification-id` matches and then calls `loadNotificationCount()`
(one further GET of the count endpoint, never the list endpoint); on a
non-ok response or a rejected fetch, leaves the DOM untouched. -/
def markNotificationRead (res : FetchOutcome) (id : Int)
    (dom : List NotificationItem) : List NotificationItem × List NetRequest :=
  match res with
  | .ok =>
    (updateFirst (fun it => it.dataNotificationId == id) markReadMutate dom,
     [NetRequest.markReadPut id, NetRequest.countGet])
  | .notOk => (dom, [NetRequest.markReadPut id])
  | .reject => (dom, [NetRequest.markReadPut id])

theorem mathFloorDiv_natCast (a b : Nat) :
    mathFloorDiv (a : Int) (b : Int) = ((a / b : Nat) : Int) := by
  unfold mathFloorDiv
  rw [Int.fdiv_eq_ediv _ (Int.natCast_nonneg b)]
  exact (Int.ofNat_ediv a b).symm

theorem toString_intCast_nat (n : Nat) :
    toString ((n : Nat) : Int) = toString n := rfl

/-- C5: `getTimeAgo` maps an elapsed time of `d` whole seconds to
"Just now" when `d < 60`, `floor(d/60) ++ "m ago"` when `60 ≤ d < 3600`,
`floor(d/3600) ++ "h ago"` when `3600 ≤ d < 86400`, and
`floor(d/86400) ++ "d ago"` otherwise, always floor-truncated; in
particular offsets of -10s, -90s, -3000s, -90000s from the reference time
yield "Just now", "1m ago", "50m ago", "1d ago". -/
theorem getTimeAgo_piecewise (now date : Int) (d : Nat)
    (h : now - date = (d : Int) * 1000) :
    ((d < 60 → getTimeAgo now date = "Just now") ∧
     (60 ≤ d → d < 3600 → getTimeAgo now date = toString (d / 60) ++ "m ago") ∧
     (3600 ≤ d → d < 86400 → getTimeAgo now date = toString (d / 3600) ++ "h ago") ∧
     (86400 ≤ d → getTimeAgo now date = toString (d / 86400) ++ "d ago")) ∧
    getTimeAgo 0 (-10000) = "Just now" ∧
    getTimeAgo 0 (-90000) = "1m ago" ∧
    getTimeAgo 0 (-3000000) = "50m ago" ∧
    getTimeAgo 0 (-90000000) = "1d ago" := by
  have hdiff : mathFloorDiv (now - date) 1000 = (d : Int) := by
    rw [h]
    have h1 : ((d : Int) * 1000) = ((d * 1000 : Nat) : Int) := by push_cast; ring
    have h2 := mathFloorDiv_natCast (d * 1000) 1000
    push_cast at h2
    rw [h1]
    push_cast
    rw [h2]
    norm_num
  have h60 : mathFloorDiv (d : Int) 60 = ((d / 60 : Nat) : Int) := by
    have := mathFloorDiv_natCast d 60
    push_cast at this
    push_cast
    exact this
  have h3600 : mathFloorDiv (d : Int) 3600 = ((d / 3600 : Nat) : Int) := by
    have := mathFloorDiv_natCast d 3600
    push_cast at this
    push_cast
    exact this
  have h86400 : mathFloorDiv (d : Int) 86400 = ((d / 86400 : Nat) : Int) := by
    have := mathFloorDiv_natCast d 86400
    push_cast at this
    push_cast
    exact this
  refine ⟨⟨?_, ?_, ?_, ?_⟩, rfl, rfl, rfl, rfl⟩
  · intro hd
    unfold getTimeAgo
    rw [hdiff, if_pos (by omega)]
  · intro hd1 hd2
    unfold getTimeAgo
    rw [hdiff, if_neg (by omega), if_pos (by omega), h60, toString_intCast_nat]
  · intro hd1 hd2
    unfold getTimeAgo
    rw [hdiff, if_neg (by omega), if_neg (by omega), if_pos (by omega),
      h3600, toString_intCast_nat]
  · intro hd1
    unfold getTimeAgo
    rw [hdiff, if_neg (by omega), if_neg (by omega), if_neg (by omega),
      h86400, toString_intCast_nat]

/-- Witness for C5: at reference time 90000ms and timestamp 0
(an elapsed time of 90 whole seconds) the label is "1m ago". -/
theorem getTimeAgo_piecewise_witness :
    getTimeAgo 90000 0 = toString (90 / 60 : Nat) ++ "m ago" :=
  (getTimeAgo_piecewise 90000 0 90 (by norm_num)).1.2.1 (by norm_num) (by norm_num)

/-- C10: for every timestamp at or after the reference time (zero or
negative elapsed difference), `getTimeAgo` returns "Just now"; the
function is total, so it never throws. -/
theorem getTimeAgo_future (now date : Int) (h : now ≤ date) :
    getTimeAgo now date = "Just now" := by
  unfold getTimeAgo mathFloorDiv
  rw [Int.fdiv_eq_ediv _ (by norm_num : (0:Int) ≤ 1000)]
  have hlt : (now - date) / 1000 < 60 := by omega
  rw [if_pos hlt]

/-- Witness for C10: a timestamp 5 seconds in the future renders "Just now". -/
theorem getTimeAgo_future_witness : getTimeAgo 0 5000 = "Just now" :=
  getTimeAgo_future 0 5000 (by norm_num)

/-- C7: a push event with no data yields the default title
"iTrax Notification", the default body "You have a new notification",
and exactly the two default actions with ids "explore" and "close";
exactly one notification is displayed. -/
theorem pushHandler_noData :
    (pushHandler none).title = "iTrax Notification" ∧
    (pushHandler none).body = "You have a new notification" ∧
    (pushHandler none).actions = defaultNotificationActions ∧
    (pushHandler none).actions.map NotifAction.action = ["explore", "close"] ∧
    (pushDisplayed none).length = 1 :=
  ⟨rfl, rfl, rfl, rfl, rfl⟩

/-- C2 as universally stated is false: the payload with raw text "" is
present and not parseable as structured JSON, yet the displayed body is
the default string, not the raw (empty) payload text, because the source
computes `event.data.text() || defaultBody` and the empty string is
falsy. -/
theorem pushHandler_emptyText_counterexample :
    (pushHandler (some { text := "", json := none })).body ≠ "" ∧
    (pushHandler (some { text := "", json := none })).body
      = "You have a new notification" :=
  ⟨by decide, rfl⟩

/-- C2 (amended): for every push event whose payload is present but not
parseable as structured JSON, the handler displays exactly one
notification whose title is the default "iTrax Notification" and whose
body is the raw payload text when that text is nonempty (an empty payload
text falls back to the default body); the handler is a total function on
all payloads, so it never throws past itself and never drops the
notification. -/
theorem pushHandler_unparseable (d : PushMessageData) (h : d.json = none) :
    (pushHandler (some d)).title = "iTrax Notification" ∧
    (d.text ≠ "" → (pushHandler (some d)).body = d.text) ∧
    (d.text = "" → (pushHandler (some d)).body = "You have a new notification") ∧
    (pushDisplayed (some d)).length = 1 := by
  obtain ⟨t, j⟩ := d
  simp only at h
  subst h
  by_cases ht : t = ""
  · subst ht
    refine ⟨rfl, ?_, fun _ => ?_, rfl⟩
    · intro hne
      exact absurd rfl hne
    · show jsOrString (some "") "You have a new notification" = _
      simp [jsOrString]
  · refine ⟨rfl, fun _ => ?_, fun he => absurd he ht, rfl⟩
    show jsOrString (some t) "You have a new notification" = t
    simp [jsOrString, ht]

/-- Witness for C2: the unparseable payload "not json" followed by an
opening brace produces the default title and the raw text as body. -/
theorem pushHandler_unparseable_witness :
    (pushHandler (some { text := "not json\x7b", json := none })).title
      = "iTrax Notification" ∧
    (pushHandler (some { text := "not json\x7b", json := none })).body
      = "not json\x7b" := by
  have h := pushHandler_unparseable { text := "not json\x7b", json := none } rfl
  exact ⟨h.1, h.2.1 (by decide)⟩

/-- C6: every notificationclick first closes the notification,
unconditionally; then an "explore" action opens a window at
"/notifications/all", a "close" action performs no further effect, and a
bare click (empty action id, and in general any unrecognized action id)
opens a window at "/". -/
theorem notificationclickHandler_spec :
    (∀ action : String,
      (notificationclickHandler action).head? = some ClickEffect.closeNotification) ∧
    notificationclickHandler "explore"
      = [ClickEffect.closeNotification, ClickEffect.openWindow "/notifications/all"] ∧
    notificationclickHandler "close" = [ClickEffect.closeNotification] ∧
    notificationclickHandler ""
      = [ClickEffect.closeNotification, ClickEffect.openWindow "/"] ∧
    (∀ action : String, action ≠ "explore" → action ≠ "close" →
      notificationclickHandler action
        = [ClickEffect.closeNotification, ClickEffect.openWindow "/"]) := by
  refine ⟨fun a => rfl, rfl, rfl, rfl, fun a h1 h2 => ?_⟩
  simp [notificationclickHandler, h1, h2]

/-- Witness for C6: an unrecognized action id routes to the root route. -/
theorem notificationclickHandler_spec_witness :
    notificationclickHandler "other"
      = [ClickEffect.closeNotification, ClickEffect.openWindow "/"] :=
  notificationclickHandler_spec.2.2.2.2 "other" (by decide) (by decide)

theorem cacheAddAll_eq_none_of_mem (fetch : String → Option String)
    (l : List String) (u : String) (hu : u ∈ l) (hf : fetch u = none) :
    cacheAddAll fetch l = none := by
  induction l with
  | nil => cases hu
  | cons x xs ih =>
    rcases List.mem_cons.mp hu with h | h
    · subst h
      simp [cacheAddAll, hf]
    · cases hx : fetch x <;> simp [cacheAddAll, hx, ih h]

/-- C4: when every required asset fetch succeeds, install populates the
cache named `CACHE_NAME` with exactly the four fixed assets of
`urlsToCache`, in order; and if fetching any required asset fails, the
install promise rejects and the worker does not activate. -/
theorem installHandler_spec (fetch : String → Option String) :
    (∀ bodies : String → String, (∀ u ∈ urlsToCache, fetch u = some (bodies u)) →
      installHandler fetch
        = some (CACHE_NAME, urlsToCache.map (fun u => (u, bodies u)))) ∧
    (∀ u ∈ urlsToCache, fetch u = none →
      installHandler fetch = none ∧ workerActivates fetch = false) := by
  constructor
  · intro bodies h
    have h1 := h "/" (by simp [urlsToCache])
    have h2 := h "/static/css/bootstrap.min.css" (by simp [urlsToCache])
    have h3 := h "/static/js/bootstrap.bundle.min.js" (by simp [urlsToCache])
    have h4 := h "/static/js/notifications.js" (by simp [urlsToCache])
    simp [installHandler, cacheAddAll, urlsToCache, h1, h2, h3, h4]
  · intro u hu hf
    have hnone : cacheAddAll fetch urlsToCache = none :=
      cacheAddAll_eq_none_of_mem fetch urlsToCache u hu hf
    refine ⟨?_, ?_⟩
    · simp [installHandler, hnone]
    · simp [workerActivates, installHandler, hnone]

/-- Witness for C4: with every fetch succeeding the cache holds the four
assets; with the root asset failing to fetch, install rejects. -/
theorem installHandler_spec_witness :
    installHandler (fun u => some u)
      = some (CACHE_NAME, urlsToCache.map (fun u => (u, u))) ∧
    installHandler (fun _ => none) = none :=
  ⟨(installHandler_spec (fun u => some u)).1 (fun u => u) (fun _ _ => rfl),
   ((installHandler_spec (fun _ => none)).2 "/" (by simp [urlsToCache]) rfl).1⟩

/-- C1: a poll whose fetch rejects, whose JSON parse fails, or whose
response lacks `success = true` leaves the counter state, and hence the
displayed badge, unchanged; and for the poll sequence success/5, failure,
success/3 the displayed badge reads "5", "5", "3". -/
theorem loadNotificationCount_spec :
    (∀ (s : CounterState) (n : Int),
      loadNotificationCount .fetchReject s = s ∧
      loadNotificationCount .parseFail s = s ∧
      loadNotificationCount (.ok false n) s = s) ∧
    (∀ (c0 : Int) (b0 : BadgeElem),
      (loadNotificationCount (.ok true 5) ⟨c0, some b0⟩).badge
          = some ⟨"5", "inline-block"⟩ ∧
      (loadNotificationCount .fetchReject
          (loadNotificationCount (.ok true 5) ⟨c0, some b0⟩)).badge
          = some ⟨"5", "inline-block"⟩ ∧
      (loadNotificationCount (.ok true 3)
          (loadNotificationCount .fetchReject
            (loadNotificationCount (.ok true 5) ⟨c0, some b0⟩))).badge
          = some ⟨"3", "inline-block"⟩) :=
  ⟨fun _ _ => ⟨rfl, rfl, rfl⟩, fun _ _ => ⟨rfl, rfl, rfl⟩⟩

/-- C9: when the key endpoint responds with parseable JSON carrying a
`publicKey` field, that field is returned; on any fetch or parse failure
the hardcoded fallback key is returned instead of failing. -/
theorem getVAPIDPublicKey_spec :
    (∀ k : String, getVAPIDPublicKey (.parsed (some k)) = some k) ∧
    getVAPIDPublicKey .failure = some fallbackVAPIDKey :=
  ⟨fun _ => rfl, rfl⟩

/-- C3: `subscribeToPush` is idempotent: with an existing subscription
handle it returns at once, issuing no network call and creating nothing;
hence two sequential calls starting from no subscription issue exactly
one registration POST to the server. -/
theorem subscribeToPush_idempotent :
    (∀ (b : Option PushSubscription) (sub : PushSubscription),
      subscribeToPush b (some sub) = (some sub, [])) ∧
    (∀ newSub : PushSubscription,
      ((subscribeToPush (some newSub) none).2
          ++ (subscribeToPush (some newSub)
                (subscribeToPush (some newSub) none).1).2).count
        SubscribeCall.registerSubscription = 1) :=
  ⟨fun _ _ => rfl, fun _ => rfl⟩

theorem updateFirst_append {α : Type} (p : α → Bool) (f : α → α)
    (pre : List α) (x : α) (post : List α)
    (hpre : ∀ y ∈ pre, p y = false) (hx : p x = true) :
    updateFirst p f (pre ++ x :: post) = pre ++ f x :: post := by
  induction pre with
  | nil => simp [updateFirst, hx]
  | cons a as ih =>
    have ha : p a = false := hpre a (by simp)
    simp only [List.cons_append, updateFirst, ha, Bool.false_eq_true, if_false,
      List.append_eq]
    rw [ih (fun y hy => hpre y (by simp [hy]))]

/-- C8: on an ok response, `markNotificationRead` mutates only the
matching row (removing the `unread` class and the "New" badge, adding
`read`) and issues the count poll as a second network call, never a list
fetch; on a non-ok response or a rejected fetch it leaves the DOM
unchanged. -/
theorem markNotificationRead_spec (id : Int)
    (pre post : List NotificationItem) (it : NotificationItem)
    (hpre : ∀ y ∈ pre, (y.dataNotificationId == id) = false)
    (hit : it.dataNotificationId = id) :
    (markNotificationRead .ok id (pre ++ it :: post)).1
        = pre ++ markReadMutate it :: post ∧
    "unread" ∉ (markReadMutate it).classes ∧
    "read" ∈ (markReadMutate it).classes ∧
    (markReadMutate it).hasNewBadge = false ∧
    (markNotificationRead .ok id (pre ++ it :: post)).2
        = [NetRequest.markReadPut id, NetRequest.countGet] ∧
    NetRequest.listGet ∉ (markNotificationRead .ok id (pre ++ it :: post)).2 ∧
    (∀ dom : List NotificationItem,
      markNotificationRead .notOk id dom = (dom, [NetRequest.markReadPut id]) ∧
      markNotificationRead .reject id dom = (dom, [NetRequest.markReadPut id])) := by
  refine ⟨?_, ?_, ?_, rfl, rfl, ?_, fun dom => ⟨rfl, rfl⟩⟩
  · show updateFirst (fun x => x.dataNotificationId == id) markReadMutate
        (pre ++ it :: post) = pre ++ markReadMutate it :: post
    exact updateFirst_append _ _ pre it post hpre (by simp [hit])
  · simp only [markReadMutate, classListAdd, classListRemove]
    split
    · intro hmem
      have := List.of_mem_filter hmem
      simp at this
    · intro hmem
      rcases List.mem_append.mp hmem with h | h
      · have := List.of_mem_filter h
        simp at this
      · simp at h
  · simp only [markReadMutate, classListAdd]
    split
    · assumption
    · simp
  · intro hmem
    simp [markNotificationRead] at hmem

/-- Witness for C8: marking row 2 read in a two-row dropdown rewrites
only that row and issues the PUT followed by the count GET. -/
theorem markNotificationRead_spec_witness :
    (markNotificationRead .ok 2
        [(⟨1, ["notification-item", "read"], false⟩ : NotificationItem),
         ⟨2, ["notification-item", "unread"], true⟩]).1
      = [(⟨1, ["notification-item", "read"], false⟩ : NotificationItem),
         markReadMutate ⟨2, ["notification-item", "unread"], true⟩] ∧
    (markNotificationRead .ok 2
        [(⟨1, ["notification-item", "read"], false⟩ : NotificationItem),
         ⟨2, ["notification-item", "unread"], true⟩]).2
      = [NetRequest.markReadPut 2, NetRequest.countGet] := by
  have h := markNotificationRead_spec 2
    [(⟨1, ["notification-item", "read"], false⟩ : NotificationItem)] []
    ⟨2, ["notification-item", "unread"], true⟩ (by decide) rfl
  exact ⟨h.1, h.2.2.2.2.1⟩

end ITrax
